import Mathlib

/-!
Verification of the Resume-Analyzer backend core: a shallow embedding of
`backend/main.py`'s `parse_analysis` and of `backend/job_matcher.py`'s
fetch / score / rank pipeline, together with proofs settling the spec claims.

Strings are modelled as `List Char`.  Python's `str.lower()` is modelled by
per-character `Char.toLower` (exact for the ASCII inputs the regexes care
about).  Python's `re` patterns used by the source are concrete, so each one
is embedded as an executable matcher with Python's leftmost-search,
lazy-dot (`.*?` not crossing a newline, since `re.DOTALL` is not set),
greedy-optional and first-alternative semantics.
-/

namespace ResumeAnalyzer

/-- Characters Python's `\s` (and `str.strip()` / `str.split()`) treat as
whitespace, restricted to ASCII. -/
def pyWs (c : Char) : Bool :=
  c == ' ' || c == '\t' || c == '\n' || c == '\r' || c == '\x0b' || c == '\x0c'

/-- Python's `str.lower()` on a character list (ASCII-exact). -/
def lowerL (l : List Char) : List Char :=
  l.map Char.toLower

/-- Abbreviation turning a Lean string literal into the `List Char` model. -/
def strL (s : String) : List Char :=
  s.data

/-- Python's `str.strip()` with an explicit character set: drop the set's
characters from both ends. -/
def stripBy (p : Char → Bool) (l : List Char) : List Char :=
  ((l.dropWhile p).reverse.dropWhile p).reverse

/-- The strip set `' :\n-*#'` used on every extracted section body. -/
def sectionStripChar (c : Char) : Bool :=
  c == ' ' || c == ':' || c == '\n' || c == '-' || c == '*' || c == '#'

/-- `strip(' :\n-*#')` from `parse_analysis`. -/
def stripSection (l : List Char) : List Char :=
  stripBy sectionStripChar l

/-- `str.strip()` (no argument) as used on paragraphs. -/
def pyStrip (l : List Char) : List Char :=
  stripBy pyWs l

/-- `str.join` of Python: `sep.join(parts)`. -/
def pyJoin (sep : List Char) : List (List Char) → List Char
  | [] => []
  | [x] => x
  | x :: xs => x ++ sep ++ pyJoin sep xs

/-- Python's substring test `p in s`. -/
def isSubstr (p : List Char) : List Char → Bool
  | [] => p.isPrefixOf []
  | c :: t => p.isPrefixOf (c :: t) || isSubstr p t

/-- Python's no-argument `str.split()`: split on whitespace runs, no empty
parts.  `acc` accumulates the current word reversed. -/
def pySplitWsAux : List Char → List Char → List (List Char)
  | [], acc => if acc.isEmpty then [] else [acc.reverse]
  | c :: t, acc =>
    if pyWs c then
      if acc.isEmpty then pySplitWsAux t [] else acc.reverse :: pySplitWsAux t []
    else
      pySplitWsAux t (c :: acc)

/-- `role.split()` from `calculate_match_score`. -/
def pySplitWs (l : List Char) : List (List Char) :=
  pySplitWsAux l []

/-! ### Embedded regex matchers

An *attempt* is a function `List Char → Option Nat` trying to match a pattern
at the start of its input and returning the number of consumed characters.
`re.search` is the leftmost position at which an attempt succeeds. -/

/-- End of a pattern: matches the empty string. -/
def patEnd (_ : List Char) : Option Nat :=
  some 0

/-- Match a literal, then continue with `tail`. -/
def litThen (lit : List Char) (tail : List Char → Option Nat) (s : List Char) :
    Option Nat :=
  if lit.isPrefixOf s then (tail (s.drop lit.length)).map (lit.length + ·) else none

/-- Alternation `(?:a1|a2|...)` over literals followed by `tail`, trying the
alternatives in order with backtracking into `tail`. -/
def altsThen : List (List Char) → (List Char → Option Nat) → List Char → Option Nat
  | [], _, _ => none
  | a :: rest, tail, s =>
    match litThen a tail s with
    | some k => some k
    | none => altsThen rest tail s

/-- Greedy optional group `(?:a1|a2|...)?` followed by `tail`: try the
alternatives first, fall back to skipping the group. -/
def optThen (alts : List (List Char)) (tail : List Char → Option Nat)
    (s : List Char) : Option Nat :=
  match altsThen alts tail s with
  | some k => some k
  | none => tail s

/-- Lazy `.*?` (with `.` not matching `'\n'`) followed by `tail`: the shortest
newline-free gap after which `tail` matches. -/
def lazyThen (tail : List Char → Option Nat) : List Char → Option Nat
  | [] => tail []
  | c :: t =>
    match tail (c :: t) with
    | some k => some k
    | none => if c == '\n' then none else (lazyThen tail t).map (· + 1)

/-- `re.search` for a consumed-length attempt: leftmost start position paired
with the consumed length. -/
def searchPosAux (attempt : List Char → Option Nat) (i : Nat) :
    List Char → Option (Nat × Nat)
  | [] =>
    match attempt [] with
    | some k => some (i, k)
    | none => none
  | c :: t =>
    match attempt (c :: t) with
    | some k => some (i, k)
    | none => searchPosAux attempt (i + 1) t

/-- `re.search(pattern, s)` returning `(match.start(), consumed length)`. -/
def searchPat (attempt : List Char → Option Nat) (s : List Char) :
    Option (Nat × Nat) :=
  searchPosAux attempt 0 s

/-- The `for pattern in patterns: if re.search(...): ... break` idiom: first
pattern of the list that matches anywhere wins. -/
def firstPat : List (List Char → Option Nat) → List Char → Option (Nat × Nat)
  | [], _ => none
  | p :: ps, s =>
    match searchPat p s with
    | some r => some r
    | none => firstPat ps s

/-! #### The heading patterns of `parse_analysis` (searched on the lowercased
text, so the `re.IGNORECASE`-free literals below are the source's verbatim) -/

/-- `(?:score|rating|match).*?explanation` -/
def patScoreExpl (s : List Char) : Option Nat :=
  altsThen [strL "score", strL "rating", strL "match"]
    (lazyThen (litThen (strL "explanation") patEnd)) s

/-- `score analysis` -/
def patScoreAnalysis (s : List Char) : Option Nat :=
  litThen (strL "score analysis") patEnd s

/-- `match score` -/
def patMatchScore (s : List Char) : Option Nat :=
  litThen (strL "match score") patEnd s

/-- `score_patterns` of `parse_analysis`. -/
def explPats : List (List Char → Option Nat) :=
  [patScoreExpl, patScoreAnalysis, patMatchScore]

/-- `(?:resume )?summary` -/
def patResumeSummary (s : List Char) : Option Nat :=
  optThen [strL "resume "] (litThen (strL "summary") patEnd) s

/-- `candidate profile` -/
def patCandidateProfile (s : List Char) : Option Nat :=
  litThen (strL "candidate profile") patEnd s

/-- `overview` -/
def patOverview (s : List Char) : Option Nat :=
  litThen (strL "overview") patEnd s

/-- `professional summary` -/
def patProfessionalSummary (s : List Char) : Option Nat :=
  litThen (strL "professional summary") patEnd s

/-- `summary_patterns` of `parse_analysis`. -/
def summaryPats : List (List Char → Option Nat) :=
  [patResumeSummary, patCandidateProfile, patOverview, patProfessionalSummary]

/-- `improvements?` -/
def patImprovements (s : List Char) : Option Nat :=
  litThen (strL "improvement") (optThen [strL "s"] patEnd) s

/-- `recommendations?` -/
def patRecommendations (s : List Char) : Option Nat :=
  litThen (strL "recommendation") (optThen [strL "s"] patEnd) s

/-- `suggestions?` -/
def patSuggestions (s : List Char) : Option Nat :=
  litThen (strL "suggestion") (optThen [strL "s"] patEnd) s

/-- `areas? (?:to|for) improve` -/
def patAreasImprove (s : List Char) : Option Nat :=
  litThen (strL "area")
    (optThen [strL "s"]
      (litThen (strL " ")
        (altsThen [strL "to", strL "for"] (litThen (strL " improve") patEnd)))) s

/-- `how to improve` -/
def patHowToImprove (s : List Char) : Option Nat :=
  litThen (strL "how to improve") patEnd s

/-- `improvement_patterns` of `parse_analysis`. -/
def improvePats : List (List Char → Option Nat) :=
  [patImprovements, patRecommendations, patSuggestions, patAreasImprove,
   patHowToImprove]

/-- `suitable.*?(?:job|role|position)s?` -/
def patSuitable (s : List Char) : Option Nat :=
  litThen (strL "suitable")
    (lazyThen (altsThen [strL "job", strL "role", strL "position"]
      (optThen [strL "s"] patEnd))) s

/-- `job.*?roles?` -/
def patJobRoles (s : List Char) : Option Nat :=
  litThen (strL "job") (lazyThen (litThen (strL "role") (optThen [strL "s"] patEnd))) s

/-- `recommended.*?(?:job|role|position)s?` -/
def patRecommendedRoles (s : List Char) : Option Nat :=
  litThen (strL "recommended")
    (lazyThen (altsThen [strL "job", strL "role", strL "position"]
      (optThen [strL "s"] patEnd))) s

/-- `career.*?(?:path|option|suggestion)s?` -/
def patCareer (s : List Char) : Option Nat :=
  litThen (strL "career")
    (lazyThen (altsThen [strL "path", strL "option", strL "suggestion"]
      (optThen [strL "s"] patEnd))) s

/-- `job_role_patterns` of `parse_analysis`. -/
def rolePats : List (List Char → Option Nat) :=
  [patSuitable, patJobRoles, patRecommendedRoles, patCareer]

/-- The boundary pattern `(?:summary|improvements?|recommendations?)` ending
the explanation section. -/
def nextAfterExpl (s : List Char) : Option Nat :=
  match litThen (strL "summary") patEnd s with
  | some k => some k
  | none =>
    match litThen (strL "improvement") (optThen [strL "s"] patEnd) s with
    | some k => some k
    | none => litThen (strL "recommendation") (optThen [strL "s"] patEnd) s

/-- The boundary pattern `(?:improvements?|recommendations?|suggestions?)`
ending the summary section. -/
def nextAfterSummary (s : List Char) : Option Nat :=
  match litThen (strL "improvement") (optThen [strL "s"] patEnd) s with
  | some k => some k
  | none =>
    match litThen (strL "recommendation") (optThen [strL "s"] patEnd) s with
    | some k => some k
    | none => litThen (strL "suggestion") (optThen [strL "s"] patEnd) s

/-- The boundary pattern `(?:suitable|job roles?|recommended roles?|career)`
ending the improvements section. -/
def nextAfterImprove (s : List Char) : Option Nat :=
  match litThen (strL "suitable") patEnd s with
  | some k => some k
  | none =>
    match litThen (strL "job role") (optThen [strL "s"] patEnd) s with
    | some k => some k
    | none =>
      match litThen (strL "recommended role") (optThen [strL "s"] patEnd) s with
      | some k => some k
      | none => litThen (strL "career") patEnd s

/-! #### Numeric score patterns of `parse_analysis`

These return the captured `(\d{1,3})` value directly. -/

/-- Greedy `(\d{1,3})`: one to three leading ASCII digits, as a number. -/
def digits13 : List Char → Option Nat
  | [] => none
  | c1 :: rest1 =>
    if c1.isDigit then
      match rest1 with
      | [] => some (c1.toNat - 48)
      | c2 :: rest2 =>
        if c2.isDigit then
          match rest2 with
          | [] => some ((c1.toNat - 48) * 10 + (c2.toNat - 48))
          | c3 :: _ =>
            if c3.isDigit then
              some ((c1.toNat - 48) * 100 + (c2.toNat - 48) * 10 + (c3.toNat - 48))
            else
              some ((c1.toNat - 48) * 10 + (c2.toNat - 48))
        else
          some (c1.toNat - 48)
    else
      none

/-- The common numeric tail `\s*[:\-]?\s*(\d{1,3})`, with backtracking out of
the optional separator. -/
def numTail (s : List Char) : Option Nat :=
  let s1 := s.dropWhile pyWs
  match s1 with
  | [] => none
  | c :: t =>
    if c == ':' || c == '-' then
      match digits13 (t.dropWhile pyWs) with
      | some v => some v
      | none => digits13 s1
    else
      digits13 s1

/-- Greedy optional keyword (e.g. `(?:score|match)?`) before `numTail`, with
backtracking: if the consumed keyword leads nowhere, skip it. -/
def optWordNum : List (List Char) → List Char → Option Nat
  | [], s => numTail s
  | a :: rest, s =>
    if a.isPrefixOf s then
      match numTail (s.drop a.length) with
      | some v => some v
      | none => optWordNum rest s
    else
      optWordNum rest s

/-- `(?:score|rating)\s*[:\-]?\s*(\d{1,3})` — the primary score pattern. -/
def numPrimary (s : List Char) : Option Nat :=
  if (strL "score").isPrefixOf s then numTail (s.drop 5)
  else if (strL "rating").isPrefixOf s then numTail (s.drop 6)
  else none

/-- `ats\s*(?:score|compatibility)?\s*[:\-]?\s*(\d{1,3})` -/
def numAts (s : List Char) : Option Nat :=
  if (strL "ats").isPrefixOf s then
    optWordNum [strL "score", strL "compatibility"] ((s.drop 3).dropWhile pyWs)
  else none

/-- `keyword\s*(?:score|match)?\s*[:\-]?\s*(\d{1,3})` -/
def numKeyword (s : List Char) : Option Nat :=
  if (strL "keyword").isPrefixOf s then
    optWordNum [strL "score", strL "match"] ((s.drop 7).dropWhile pyWs)
  else none

/-- `format(?:ting)?\s*(?:score)?\s*[:\-]?\s*(\d{1,3})` -/
def numFormat (s : List Char) : Option Nat :=
  if (strL "format").isPrefixOf s then
    let s1 := s.drop 6
    if (strL "ting").isPrefixOf s1 then
      match optWordNum [strL "score"] ((s1.drop 4).dropWhile pyWs) with
      | some v => some v
      | none => optWordNum [strL "score"] (s1.dropWhile pyWs)
    else
      optWordNum [strL "score"] (s1.dropWhile pyWs)
  else none

/-- `(?:section\s*)?header\s*(?:score)?\s*[:\-]?\s*(\d{1,3})` -/
def numHeader (s : List Char) : Option Nat :=
  let core := fun (u : List Char) =>
    if (strL "header").isPrefixOf u then
      optWordNum [strL "score"] ((u.drop 6).dropWhile pyWs)
    else none
  if (strL "section").isPrefixOf s then
    match core ((s.drop 7).dropWhile pyWs) with
    | some v => some v
    | none => core s
  else core s

/-- `readability\s*(?:score)?\s*[:\-]?\s*(\d{1,3})` -/
def numReadability (s : List Char) : Option Nat :=
  if (strL "readability").isPrefixOf s then
    optWordNum [strL "score"] ((s.drop 11).dropWhile pyWs)
  else none

/-- `re.search` for a value-returning attempt: leftmost match's value. -/
def searchNum (attempt : List Char → Option Nat) : List Char → Option Nat
  | [] => attempt []
  | c :: t =>
    match attempt (c :: t) with
    | some v => some v
    | none => searchNum attempt t

/-! #### Fallback splitting -/

/-- Is the lookahead `(?=\d\.|\*\*)` satisfied at the start of `s`? -/
def numBoldBoundary : List Char → Bool
  | c1 :: c2 :: _ => (c1.isDigit && c2 == '.') || (c1 == '*' && c2 == '*')
  | _ => false

/-- `re.split(r'\n(?=\d\.|\*\*)', text)`: split at each newline immediately
followed by a numbered-list or bold marker (the newline is consumed). -/
def splitNumBold : List Char → List (List Char)
  | [] => [[]]
  | c :: rest =>
    if c == '\n' && numBoldBoundary rest then
      [] :: splitNumBold rest
    else
      match splitNumBold rest with
      | p :: ps => (c :: p) :: ps
      | [] => [[c]]

/-- `text.split('\n\n')`: non-overlapping split on the literal separator. -/
def splitParas : List Char → List (List Char)
  | '\n' :: '\n' :: rest => [] :: splitParas rest
  | c :: rest =>
    match splitParas rest with
    | p :: ps => (c :: p) :: ps
    | [] => [[c]]
  | [] => [[]]

/-! ### `parse_analysis` -/

/-- The four text sections extracted by `parse_analysis`. -/
structure Sections where
  expl : List Char
  summary : List Char
  improvements : List Char
  roles : List Char
deriving DecidableEq, Repr

/-- Canned strings of the final `fewer-than-4-paragraphs` fallback branch. -/
def cascadeExpl : List Char := strL "Resume analyzed against job requirements"

/-- Canned improvements string of the final fallback branch. -/
def cascadeImprove : List Char :=
  strL "Consider tailoring your resume to highlight relevant skills mentioned in the job description"

/-- Canned job-roles string of the final fallback branch. -/
def cascadeRoles : List Char :=
  strL "Software Engineer, Data Analyst, Technical Consultant"

/-- Canned job-roles string of the paragraphs fallback branch. -/
def parasRoles : List Char :=
  strL "Based on your skills, consider roles in software engineering, data science, or related technical fields."

/-- Step 2 of `parse_analysis`: heading-based section extraction on the
lowercased text, slicing the original text by the heading match's end and the
next recognized heading's start (or a fixed offset). -/
def headingSections (t : List Char) : Sections :=
  let tl := lowerL t
  let expl :=
    match firstPat explPats tl with
    | some (st, k) =>
      let b := st + k
      let e :=
        match searchPat nextAfterExpl (tl.drop b) with
        | some (ns, _) => b + ns
        | none => b + 500
      stripSection ((t.drop b).take (e - b))
    | none => []
  let summ :=
    match firstPat summaryPats tl with
    | some (st, k) =>
      let b := st + k
      let e :=
        match searchPat nextAfterSummary (tl.drop b) with
        | some (ns, _) => b + ns
        | none => b + 800
      stripSection ((t.drop b).take (e - b))
    | none => []
  let impr :=
    match firstPat improvePats tl with
    | some (st, k) =>
      let b := st + k
      let e :=
        match searchPat nextAfterImprove (tl.drop b) with
        | some (ns, _) => b + ns
        | none => t.length
      stripSection ((t.drop b).take (e - b))
    | none => []
  let roles :=
    match firstPat rolePats tl with
    | some (st, k) => stripSection (t.drop (st + k))
    | none => []
  ⟨expl, summ, impr, roles⟩

/-- Step 3 of `parse_analysis`: the fallback cascade used when every heading
section came out empty (numbered/bold split, then paragraphs, then canned
defaults). -/
def fallbackSections (t : List Char) : Sections :=
  let parts := splitNumBold t
  if 4 ≤ parts.length then
    { expl := parts.getD 0 []
      summary := if 1 < parts.length then parts.getD 1 [] else []
      improvements :=
        if 2 < parts.length then pyJoin (strL "\n") ((parts.drop 2).take 2) else []
      roles :=
        if 4 < parts.length then pyJoin (strL "\n") (parts.drop 4) else [] }
  else
    let paragraphs := ((splitParas t).map pyStrip).filter (fun p => !p.isEmpty)
    if 4 ≤ paragraphs.length then
      { expl := paragraphs.getD 0 []
        summary := paragraphs.getD 1 []
        improvements := pyJoin (strL "\n\n") ((paragraphs.drop 2).take 2)
        roles :=
          if 4 < paragraphs.length then pyJoin (strL "\n\n") (paragraphs.drop 4)
          else parasRoles }
    else
      { expl := cascadeExpl
        summary := if 500 < t.length then t.take 500 else t
        improvements := cascadeImprove
        roles := cascadeRoles }

/-- Steps 2–3 of `parse_analysis` combined: heading extraction, falling back
to the cascade exactly when all four sections are empty
(`if not any(sections.values())`). -/
def computeSections (t : List Char) : Sections :=
  let hs := headingSections t
  if hs.expl = [] ∧ hs.summary = [] ∧ hs.improvements = [] ∧ hs.roles = [] then
    fallbackSections t
  else hs

/-- Step 1 of `parse_analysis`: primary score, clamped, defaulting to 0. -/
def extractScore (t : List Char) : Nat :=
  match searchNum numPrimary (lowerL t) with
  | some v => max 0 (min v 100)
  | none => 0

/-- Step 4, per pattern: the clamped extracted sub-score, 0 when absent. -/
def atsRaw (attempt : List Char → Option Nat) (t : List Char) : Nat :=
  match searchNum attempt (lowerL t) with
  | some v => max 0 (min v 100)
  | none => 0

/-- The `if ats_scores[k] == 0: ats_scores[k] = score` overwrite. -/
def finalScore (raw primary : Nat) : Nat :=
  if raw = 0 then primary else raw

/-- The record returned by `parse_analysis`. -/
structure AnalysisResult where
  score : Nat
  score_explanation : List Char
  summary : List Char
  improvements : List Char
  job_roles : List Char
  ats_score : Nat
  keyword_score : Nat
  format_score : Nat
  header_score : Nat
  readability_score : Nat
deriving DecidableEq, Repr

/-- Final per-field defaults substituted for empty sections on return. -/
def pyDefaultExpl : List Char := strL "Resume evaluated based on job requirements"

/-- Final default for `summary`. -/
def pyDefaultSummary : List Char :=
  strL "Professional background and qualifications reviewed"

/-- Final default for `improvements`. -/
def pyDefaultImprove : List Char :=
  strL "Focus on highlighting relevant experience and skills that match the job description"

/-- Final default for `job_roles`. -/
def pyDefaultRoles : List Char :=
  strL "Consider roles aligned with your technical expertise and experience"

/-- `parse_analysis` of `backend/main.py`. -/
def parse_analysis (text : String) : AnalysisResult :=
  let t := text.data
  let score := extractScore t
  let secs := computeSections t
  { score := score
    score_explanation :=
      if secs.expl = [] then pyDefaultExpl else secs.expl.take 600
    summary :=
      if secs.summary = [] then pyDefaultSummary else secs.summary.take 1200
    improvements :=
      if secs.improvements = [] then pyDefaultImprove else secs.improvements.take 3000
    job_roles :=
      if secs.roles = [] then pyDefaultRoles else secs.roles.take 1500
    ats_score := finalScore (atsRaw numAts t) score
    keyword_score := finalScore (atsRaw numKeyword t) score
    format_score := finalScore (atsRaw numFormat t) score
    header_score := finalScore (atsRaw numHeader t) score
    readability_score := finalScore (atsRaw numReadability t) score }

/-! ### The job matcher (`backend/job_matcher.py`) -/

/-- Resume attributes extracted by `extract_resume_data` (the JSON shape the
LLM is asked for, with the documented default substituted on failure). -/
structure ResumeAttrs where
  skills : List (List Char)
  roles : List (List Char)
  location : List Char
  experience_years : Nat
  seniority : List Char
deriving DecidableEq, Repr

/-- The normalized job-posting record each provider fetcher produces. -/
structure JobPosting where
  source : List Char
  title : List Char
  company : List Char
  location : List Char
  description : List Char
  url : List Char
  salary : Nat
  posted_date : List Char
  remote : Bool
deriving DecidableEq, Repr

/-- One parsed Adzuna result, after the `.get(...)` defaulting of
`fetch_adzuna_jobs` (missing fields already replaced by their defaults). -/
structure AdzunaJob where
  title : List Char
  company_display_name : List Char
  location_display_name : List Char
  description : List Char
  redirect_url : List Char
  salary_max : Nat
  created : List Char
deriving DecidableEq, Repr

/-- One parsed JSearch result, after `.get(...)` defaulting. -/
structure JSearchJob where
  job_title : List Char
  employer_name : List Char
  job_city : List Char
  job_description : List Char
  job_apply_link : List Char
  job_max_salary : Nat
  job_posted : List Char
  job_is_remote : Bool
deriving DecidableEq, Repr

/-- One parsed ArbeitNow result, after `.get(...)` defaulting. -/
structure ArbeitnowJob where
  title : List Char
  company_name : List Char
  location : List Char
  description : List Char
  url : List Char
  created_at : List Char
  remote : Bool
deriving DecidableEq, Repr

/-- `fetch_adzuna_jobs`, as a function of the HTTP status and the parsed
`results` array: on status 200 every result is normalized and returned (there
is no client-side slice; `results_per_page=20` is only a request parameter),
otherwise the empty list.  The exception path also yields `[]`. -/
def fetch_adzuna_jobs (status : Nat) (results : List AdzunaJob) : List JobPosting :=
  if status = 200 then
    results.map (fun j =>
      { source := strL "Adzuna"
        title := j.title
        company := j.company_display_name
        location := j.location_display_name
        description := j.description.take 500
        url := j.redirect_url
        salary := j.salary_max
        posted_date := j.created
        remote := isSubstr (strL "remote") (lowerL j.description) })
  else []

/-- `fetch_openwebninja_jobs` (the JSearch provider): on status 200 the first
20 entries of the `data` array are normalized (`data.get('data', [])[:20]`). -/
def fetch_openwebninja_jobs (status : Nat) (data : List JSearchJob) : List JobPosting :=
  if status = 200 then
    (data.take 20).map (fun j =>
      { source := strL "JSearch"
        title := j.job_title
        company := j.employer_name
        location := j.job_city
        description := j.job_description.take 500
        url := j.job_apply_link
        salary := j.job_max_salary
        posted_date := j.job_posted
        remote := j.job_is_remote })
  else []

/-- `fetch_arbeitnow_jobs`: on status 200, of the first 50 entries those whose
lowercased title contains some role or skill keyword are normalized, and the
result is capped at 15 (`return jobs[:15]`). -/
def fetch_arbeitnow_jobs (status : Nat) (data : List ArbeitnowJob)
    (skills roles : List (List Char)) : List JobPosting :=
  if status = 200 then
    (((data.take 50).filter (fun j =>
        (roles.map lowerL ++ skills.map lowerL).any
          (fun k => isSubstr k (lowerL j.title)))).map (fun j =>
      { source := strL "ArbeitNow"
        title := j.title
        company := j.company_name
        location := j.location
        description := j.description.take 500
        url := j.url
        salary := 0
        posted_date := j.created_at
        remote := j.remote })).take 15
  else []

/-- The settled outcome of one provider task under
`asyncio.gather(*tasks, return_exceptions=True)`: either the provider's list
or a raised exception carried as a value. -/
inductive FetchOutcome where
  | ok : List JobPosting → FetchOutcome
  | exn : List Char → FetchOutcome
deriving DecidableEq, Repr

/-- The postings an outcome contributes: a returned list contributes itself,
an exception contributes nothing. -/
def outcomeJobs : FetchOutcome → List JobPosting
  | FetchOutcome.ok l => l
  | FetchOutcome.exn _ => []

/-- `fetch_all_jobs`: the three provider tasks settle (in declaration order
Adzuna, JSearch, ArbeitNow) and their list results are concatenated in task
order, exceptions skipped. -/
def fetch_all_jobs (adzuna jsearch arbeitnow : FetchOutcome) : List JobPosting :=
  List.foldl
    (fun acc r =>
      match r with
      | FetchOutcome.ok l => acc ++ l
      | FetchOutcome.exn _ => acc)
    [] [adzuna, jsearch, arbeitnow]

/-- `calculate_match_score`: +30 for a role word occurring in the title,
7 points per skill entry found in title+description capped at 50, +10 for
remote, +10 for positive salary, total clamped to 100.  Scores are whole
numbers, so the Python float is modelled as `Nat`. -/
def calculate_match_score (job : JobPosting) (rd : ResumeAttrs) : Nat :=
  let skills := rd.skills.map lowerL
  let roles := rd.roles.map lowerL
  let job_text := lowerL (job.title ++ strL " " ++ job.description)
  let titleBonus :=
    if roles.any (fun role =>
        (pySplitWs role).any (fun w => isSubstr w (lowerL job.title))) then 30
    else 0
  let matched_skills := skills.countP (fun sk => isSubstr (lowerL sk) job_text)
  let score :=
    titleBonus + min (matched_skills * 7) 50 + (if job.remote then 10 else 0) +
      (if 0 < job.salary then 10 else 0)
  min score 100

/-- A posting with its computed `match_score` attached (the dict after
`job['match_score'] = ...`). -/
structure ScoredJob where
  posting : JobPosting
  match_score : Nat
deriving DecidableEq, Repr

/-- Attach the computed match score to a posting. -/
def attachScore (rd : ResumeAttrs) (j : JobPosting) : ScoredJob :=
  ⟨j, calculate_match_score j rd⟩

/-- The comparison `sorted(..., key=lambda x: x['match_score'], reverse=True)`
sorts by: `a` may precede `b` iff `b`'s score is at most `a`'s. -/
def scoreDescRel (a b : ScoredJob) : Prop :=
  b.match_score ≤ a.match_score

instance : DecidableRel scoreDescRel := fun a b =>
  Nat.decLe b.match_score a.match_score

instance : IsTotal ScoredJob scoreDescRel :=
  ⟨fun a b => Nat.le_total b.match_score a.match_score⟩

instance : IsTrans ScoredJob scoreDescRel :=
  ⟨fun _ _ _ hab hbc => Nat.le_trans hbc hab⟩

/-- `rank_jobs`: attach a match score to every posting, then sort descending
by score.  Python's `sorted` is a stable sort and `reverse=True` preserves
the original order of equal keys, which is exactly stable insertion sort
under `scoreDescRel`. -/
def rank_jobs (jobs : List JobPosting) (rd : ResumeAttrs) : List ScoredJob :=
  List.insertionSort scoreDescRel (jobs.map (attachScore rd))

/-- The result dictionary of `find_matching_jobs`.  `Option` models a key
that is absent from one of the two result shapes. -/
structure FindJobsResult where
  success : Bool
  error : Option (List Char)
  resume_data : Option ResumeAttrs
  total_jobs : Option Nat
  jobs : List ScoredJob
deriving DecidableEq, Repr

/-- `find_matching_jobs`: the try-block either completes its extract+fetch
stage (yielding resume attributes and all fetched postings, which are then
ranked, counted and truncated to 50) or raises, in which case the error
envelope is returned.  The `Except` argument is that try-block outcome. -/
def find_matching_jobs
    (pipeline : Except (List Char) (ResumeAttrs × List JobPosting)) :
    FindJobsResult :=
  match pipeline with
  | Except.ok (rd, all_jobs) =>
    let ranked := rank_jobs all_jobs rd
    { success := true
      error := none
      resume_data := some rd
      total_jobs := some ranked.length
      jobs := ranked.take 50 }
  | Except.error e =>
    { success := false
      error := some e
      resume_data := none
      total_jobs := none
      jobs := [] }

/-- The scoring formula in the words of claim C5 (counting *distinct* resume
skills), kept separate from `calculate_match_score` so the two can be
compared. -/
def claim_match_score (job : JobPosting) (rd : ResumeAttrs) : Nat :=
  let job_text := lowerL (job.title ++ strL " " ++ job.description)
  let titleBonus :=
    if rd.roles.any (fun role =>
        (pySplitWs (lowerL role)).any (fun w => isSubstr w (lowerL job.title))) then 30
    else 0
  let distinctMatched :=
    ((rd.skills.map lowerL).dedup).countP (fun sk => isSubstr sk job_text)
  min
    (titleBonus + min (7 * distinctMatched) 50 + (if job.remote then 10 else 0) +
      (if 0 < job.salary then 10 else 0)) 100

/-- The scoring formula of claim C5 as amended: 7 points per skill *list
entry* (duplicates counted per occurrence) instead of per distinct skill. -/
def amended_match_formula (job : JobPosting) (rd : ResumeAttrs) : Nat :=
  let job_text := lowerL (job.title ++ strL " " ++ job.description)
  let titleBonus :=
    if rd.roles.any (fun role =>
        (pySplitWs (lowerL role)).any (fun w => isSubstr w (lowerL job.title))) then 30
    else 0
  let entryMatched := rd.skills.countP (fun sk => isSubstr (lowerL sk) job_text)
  min
    (titleBonus + min (7 * entryMatched) 50 + (if job.remote then 10 else 0) +
      (if 0 < job.salary then 10 else 0)) 100

/-- A blank posting used to instantiate universally quantified statements. -/
def stubPosting : JobPosting :=
  ⟨[], [], [], [], [], [], 0, [], false⟩

/-- A blank Adzuna provider result. -/
def stubAdzuna : AdzunaJob :=
  ⟨[], [], [], [], [], 0, []⟩

/-- Blank resume attributes. -/
def stubAttrs : ResumeAttrs :=
  ⟨[], [], [], 0, []⟩

/-! ## Theorems -/

/-- Unfolding lemma: the primary score field of `parse_analysis`. -/
theorem parse_analysis_score (text : String) :
    (parse_analysis text).score = extractScore text.data := rfl

/-- Unfolding lemma: the explanation field of `parse_analysis`. -/
theorem parse_analysis_expl (text : String) :
    (parse_analysis text).score_explanation =
      if (computeSections text.data).expl = [] then pyDefaultExpl
      else (computeSections text.data).expl.take 600 := rfl

/-- Unfolding lemma: the summary field of `parse_analysis`. -/
theorem parse_analysis_summary (text : String) :
    (parse_analysis text).summary =
      if (computeSections text.data).summary = [] then pyDefaultSummary
      else (computeSections text.data).summary.take 1200 := rfl

/-- Unfolding lemma: the improvements field of `parse_analysis`. -/
theorem parse_analysis_improvements (text : String) :
    (parse_analysis text).improvements =
      if (computeSections text.data).improvements = [] then pyDefaultImprove
      else (computeSections text.data).improvements.take 3000 := rfl

/-- Unfolding lemma: the job-roles field of `parse_analysis`. -/
theorem parse_analysis_roles (text : String) :
    (parse_analysis text).job_roles =
      if (computeSections text.data).roles = [] then pyDefaultRoles
      else (computeSections text.data).roles.take 1500 := rfl

/-- Unfolding lemma: the ats sub-score field of `parse_analysis`. -/
theorem parse_analysis_ats (text : String) :
    (parse_analysis text).ats_score =
      finalScore (atsRaw numAts text.data) (extractScore text.data) := rfl

/-- Unfolding lemma: the keyword sub-score field of `parse_analysis`. -/
theorem parse_analysis_keyword (text : String) :
    (parse_analysis text).keyword_score =
      finalScore (atsRaw numKeyword text.data) (extractScore text.data) := rfl

/-- Unfolding lemma: the format sub-score field of `parse_analysis`. -/
theorem parse_analysis_format (text : String) :
    (parse_analysis text).format_score =
      finalScore (atsRaw numFormat text.data) (extractScore text.data) := rfl

/-- Unfolding lemma: the header sub-score field of `parse_analysis`. -/
theorem parse_analysis_header (text : String) :
    (parse_analysis text).header_score =
      finalScore (atsRaw numHeader text.data) (extractScore text.data) := rfl

/-- Unfolding lemma: the readability sub-score field of `parse_analysis`. -/
theorem parse_analysis_readability (text : String) :
    (parse_analysis text).readability_score =
      finalScore (atsRaw numReadability text.data) (extractScore text.data) := rfl

/-- The primary score is clamped to at most 100. -/
theorem extractScore_le (t : List Char) : extractScore t ≤ 100 := by
  unfold extractScore
  cases searchNum numPrimary (lowerL t) <;> simp

/-- Every raw sub-score is clamped to at most 100. -/
theorem atsRaw_le (a : List Char → Option Nat) (t : List Char) : atsRaw a t ≤ 100 := by
  unfold atsRaw
  cases searchNum a (lowerL t) <;> simp

/-- The zero-overwrite step stays within any common bound. -/
theorem finalScore_le {raw p : Nat} (h1 : raw ≤ 100) (h2 : p ≤ 100) :
    finalScore raw p ≤ 100 := by
  unfold finalScore
  split <;> assumption

/-- A sub-score search that misses leaves the raw value at 0. -/
theorem atsRaw_of_none {a : List Char → Option Nat} {t : List Char}
    (h : searchNum a (lowerL t) = none) : atsRaw a t = 0 := by
  simp [atsRaw, h]

/-- A zero raw sub-score is overwritten with the primary score. -/
theorem finalScore_of_zero {raw p : Nat} (h : raw = 0) : finalScore raw p = p := by
  simp [finalScore, h]

/-- A zero final sub-score forces a zero primary score. -/
theorem finalScore_eq_zero {raw p : Nat} (h : finalScore raw p = 0) : p = 0 := by
  unfold finalScore at h
  split at h
  · exact h
  · omega

/-- Truncation of a non-empty list to a positive length is non-empty. -/
theorem take_ne_nil_of_ne {s : List Char} {n : Nat} (hn : 0 < n) (hs : s ≠ []) :
    s.take n ≠ [] := by
  cases s with
  | nil => exact absurd rfl hs
  | cons c t =>
    cases n with
    | zero => omega
    | succ m => simp

/-- The final text-field assembly is never empty when the default is not. -/
theorem finalText_ne_nil (s d : List Char) (n : Nat) (hd : d ≠ []) (hn : 0 < n) :
    (if s = [] then d else s.take n) ≠ [] := by
  split
  · exact hd
  · exact take_ne_nil_of_ne hn (by assumption)

/-- The final text-field assembly respects the cap when the default does. -/
theorem finalText_len (s d : List Char) (n : Nat) (hd : d.length ≤ n) :
    (if s = [] then d else s.take n).length ≤ n := by
  split
  · exact hd
  · simp [List.length_take]

/-- C1: for every input string, the record returned by `parse_analysis`
satisfies the invariant: each of the six numeric fields lies in [0,100]
(the lower bound holds by the `Nat` value type), each of the four text fields
is non-empty and at most its cap (600, 1200, 3000, 1500), and whenever the
extracted section is empty the canned per-field default is substituted. -/
theorem c1_parse_analysis_invariant (text : String) :
    ((parse_analysis text).score ≤ 100
      ∧ (parse_analysis text).ats_score ≤ 100
      ∧ (parse_analysis text).keyword_score ≤ 100
      ∧ (parse_analysis text).format_score ≤ 100
      ∧ (parse_analysis text).header_score ≤ 100
      ∧ (parse_analysis text).readability_score ≤ 100)
    ∧ ((parse_analysis text).score_explanation ≠ []
      ∧ (parse_analysis text).score_explanation.length ≤ 600
      ∧ (parse_analysis text).summary ≠ []
      ∧ (parse_analysis text).summary.length ≤ 1200
      ∧ (parse_analysis text).improvements ≠ []
      ∧ (parse_analysis text).improvements.length ≤ 3000
      ∧ (parse_analysis text).job_roles ≠ []
      ∧ (parse_analysis text).job_roles.length ≤ 1500)
    ∧ (((computeSections text.data).expl = [] →
        (parse_analysis text).score_explanation = pyDefaultExpl)
      ∧ ((computeSections text.data).summary = [] →
        (parse_analysis text).summary = pyDefaultSummary)
      ∧ ((computeSections text.data).improvements = [] →
        (parse_analysis text).improvements = pyDefaultImprove)
      ∧ ((computeSections text.data).roles = [] →
        (parse_analysis text).job_roles = pyDefaultRoles)) := by
  refine ⟨⟨?_, ?_, ?_, ?_, ?_, ?_⟩, ⟨?_, ?_, ?_, ?_, ?_, ?_, ?_, ?_⟩, ?_, ?_, ?_, ?_⟩
  · rw [parse_analysis_score]; exact extractScore_le _
  · rw [parse_analysis_ats]; exact finalScore_le (atsRaw_le _ _) (extractScore_le _)
  · rw [parse_analysis_keyword]; exact finalScore_le (atsRaw_le _ _) (extractScore_le _)
  · rw [parse_analysis_format]; exact finalScore_le (atsRaw_le _ _) (extractScore_le _)
  · rw [parse_analysis_header]; exact finalScore_le (atsRaw_le _ _) (extractScore_le _)
  · rw [parse_analysis_readability]; exact finalScore_le (atsRaw_le _ _) (extractScore_le _)
  · rw [parse_analysis_expl]; exact finalText_ne_nil _ _ _ (by decide) (by omega)
  · rw [parse_analysis_expl]; exact finalText_len _ _ _ (by decide)
  · rw [parse_analysis_summary]; exact finalText_ne_nil _ _ _ (by decide) (by omega)
  · rw [parse_analysis_summary]; exact finalText_len _ _ _ (by decide)
  · rw [parse_analysis_improvements]; exact finalText_ne_nil _ _ _ (by decide) (by omega)
  · rw [parse_analysis_improvements]; exact finalText_len _ _ _ (by decide)
  · rw [parse_analysis_roles]; exact finalText_ne_nil _ _ _ (by decide) (by omega)
  · rw [parse_analysis_roles]; exact finalText_len _ _ _ (by decide)
  · intro h; rw [parse_analysis_expl, if_pos h]
  · intro h; rw [parse_analysis_summary, if_pos h]
  · intro h; rw [parse_analysis_improvements, if_pos h]
  · intro h; rw [parse_analysis_roles, if_pos h]

/-- Witness for C1: concrete inputs on which each empty-section default
substitution actually fires (summary at the empty input; explanation,
improvements and job roles at a text whose matched headings strip to empty
bodies), derived from `c1_parse_analysis_invariant`. -/
theorem c1_parse_analysis_invariant_witness :
    ((computeSections ("").data).summary = []
      ∧ (parse_analysis "").summary = pyDefaultSummary)
    ∧ ((computeSections ("overview X\nimprovements").data).expl = []
      ∧ (parse_analysis "overview X\nimprovements").score_explanation = pyDefaultExpl)
    ∧ ((computeSections ("overview X\nimprovements").data).improvements = []
      ∧ (parse_analysis "overview X\nimprovements").improvements = pyDefaultImprove)
    ∧ ((computeSections ("overview X\nimprovements").data).roles = []
      ∧ (parse_analysis "overview X\nimprovements").job_roles = pyDefaultRoles) :=
  ⟨⟨by decide, (c1_parse_analysis_invariant "").2.2.2.1 (by decide)⟩,
   ⟨by decide, (c1_parse_analysis_invariant "overview X\nimprovements").2.2.1 (by decide)⟩,
   ⟨by decide, (c1_parse_analysis_invariant "overview X\nimprovements").2.2.2.2.1 (by decide)⟩,
   ⟨by decide, (c1_parse_analysis_invariant "overview X\nimprovements").2.2.2.2.2 (by decide)⟩⟩

/-- C3: a sub-score whose keyword pattern has no match in the input equals
the primary score; a sub-score whose extracted value is 0 is overwritten
with the primary score; and a returned sub-score of 0 forces a primary
score of 0. -/
theorem c3_subscore_fallback (text : String) :
    ((searchNum numAts (lowerL text.data) = none →
        (parse_analysis text).ats_score = (parse_analysis text).score)
      ∧ (searchNum numKeyword (lowerL text.data) = none →
        (parse_analysis text).keyword_score = (parse_analysis text).score)
      ∧ (searchNum numFormat (lowerL text.data) = none →
        (parse_analysis text).format_score = (parse_analysis text).score)
      ∧ (searchNum numHeader (lowerL text.data) = none →
        (parse_analysis text).header_score = (parse_analysis text).score)
      ∧ (searchNum numReadability (lowerL text.data) = none →
        (parse_analysis text).readability_score = (parse_analysis text).score))
    ∧ ((atsRaw numAts text.data = 0 →
        (parse_analysis text).ats_score = (parse_analysis text).score)
      ∧ (atsRaw numKeyword text.data = 0 →
        (parse_analysis text).keyword_score = (parse_analysis text).score)
      ∧ (atsRaw numFormat text.data = 0 →
        (parse_analysis text).format_score = (parse_analysis text).score)
      ∧ (atsRaw numHeader text.data = 0 →
        (parse_analysis text).header_score = (parse_analysis text).score)
      ∧ (atsRaw numReadability text.data = 0 →
        (parse_analysis text).readability_score = (parse_analysis text).score))
    ∧ (((parse_analysis text).ats_score = 0 → (parse_analysis text).score = 0)
      ∧ ((parse_analysis text).keyword_score = 0 → (parse_analysis text).score = 0)
      ∧ ((parse_analysis text).format_score = 0 → (parse_analysis text).score = 0)
      ∧ ((parse_analysis text).header_score = 0 → (parse_analysis text).score = 0)
      ∧ ((parse_analysis text).readability_score = 0 →
        (parse_analysis text).score = 0)) := by
  refine ⟨⟨?_, ?_, ?_, ?_, ?_⟩, ⟨?_, ?_, ?_, ?_, ?_⟩, ?_, ?_, ?_, ?_, ?_⟩
  · intro h
    rw [parse_analysis_ats, parse_analysis_score, finalScore_of_zero (atsRaw_of_none h)]
  · intro h
    rw [parse_analysis_keyword, parse_analysis_score, finalScore_of_zero (atsRaw_of_none h)]
  · intro h
    rw [parse_analysis_format, parse_analysis_score, finalScore_of_zero (atsRaw_of_none h)]
  · intro h
    rw [parse_analysis_header, parse_analysis_score, finalScore_of_zero (atsRaw_of_none h)]
  · intro h
    rw [parse_analysis_readability, parse_analysis_score, finalScore_of_zero (atsRaw_of_none h)]
  · intro h; rw [parse_analysis_ats, parse_analysis_score, finalScore_of_zero h]
  · intro h; rw [parse_analysis_keyword, parse_analysis_score, finalScore_of_zero h]
  · intro h; rw [parse_analysis_format, parse_analysis_score, finalScore_of_zero h]
  · intro h; rw [parse_analysis_header, parse_analysis_score, finalScore_of_zero h]
  · intro h; rw [parse_analysis_readability, parse_analysis_score, finalScore_of_zero h]
  · rw [parse_analysis_ats, parse_analysis_score]; exact finalScore_eq_zero
  · rw [parse_analysis_keyword, parse_analysis_score]; exact finalScore_eq_zero
  · rw [parse_analysis_format, parse_analysis_score]; exact finalScore_eq_zero
  · rw [parse_analysis_header, parse_analysis_score]; exact finalScore_eq_zero
  · rw [parse_analysis_readability, parse_analysis_score]; exact finalScore_eq_zero

/-- Witness for C3: at a concrete input with no sub-score keywords, all five
fallbacks fire and the reported 0 sub-score coincides with a 0 primary
score, via `c3_subscore_fallback`. -/
theorem c3_subscore_fallback_witness :
    (parse_analysis "plain resume text").ats_score = (parse_analysis "plain resume text").score
    ∧ (parse_analysis "plain resume text").keyword_score =
        (parse_analysis "plain resume text").score
    ∧ (parse_analysis "plain resume text").format_score =
        (parse_analysis "plain resume text").score
    ∧ (parse_analysis "plain resume text").header_score =
        (parse_analysis "plain resume text").score
    ∧ (parse_analysis "plain resume text").readability_score =
        (parse_analysis "plain resume text").score
    ∧ (parse_analysis "plain resume text").score = 0 :=
  ⟨(c3_subscore_fallback "plain resume text").1.1 (by decide),
   (c3_subscore_fallback "plain resume text").1.2.1 (by decide),
   (c3_subscore_fallback "plain resume text").1.2.2.1 (by decide),
   (c3_subscore_fallback "plain resume text").1.2.2.2.1 (by decide),
   (c3_subscore_fallback "plain resume text").1.2.2.2.2 (by decide),
   (c3_subscore_fallback "plain resume text").2.2.1 (by decide)⟩

/-- C2 counterexample: on `"hello world"` no heading pattern of any of the
four families matches, the numbered/bold split has fewer than 4 parts and
there are fewer than 4 paragraphs, yet `parse_analysis` does not return a
canned default for `summary` — it returns the input text itself. -/
theorem c2_counterexample :
    firstPat explPats (lowerL (strL "hello world")) = none
    ∧ firstPat summaryPats (lowerL (strL "hello world")) = none
    ∧ firstPat improvePats (lowerL (strL "hello world")) = none
    ∧ firstPat rolePats (lowerL (strL "hello world")) = none
    ∧ (splitNumBold (strL "hello world")).length < 4
    ∧ ((((splitParas (strL "hello world")).map pyStrip).filter
        (fun p => !p.isEmpty)).length) < 4
    ∧ (parse_analysis "hello world").summary = strL "hello world"
    ∧ strL "hello world" ≠ pyDefaultSummary := by
  decide

/-- C2 as amended: when no heading pattern matches, the numbered/bold split
has fewer than 4 parts and there are fewer than 4 paragraphs,
`parse_analysis` returns the exact canned defaults for `score_explanation`,
`improvements` and `job_roles`, while `summary` is set to the response text
itself truncated to its first 500 characters (falling back to the canned
summary default only when the text is empty). -/
theorem c2_amended_final_fallback (text : String)
    (hE : firstPat explPats (lowerL text.data) = none)
    (hS : firstPat summaryPats (lowerL text.data) = none)
    (hI : firstPat improvePats (lowerL text.data) = none)
    (hR : firstPat rolePats (lowerL text.data) = none)
    (hParts : (splitNumBold text.data).length < 4)
    (hParas : ((((splitParas text.data).map pyStrip).filter
        (fun p => !p.isEmpty)).length) < 4) :
    (parse_analysis text).score_explanation = cascadeExpl
    ∧ (parse_analysis text).summary =
        (if text.data = [] then pyDefaultSummary
         else if 500 < text.data.length then text.data.take 500 else text.data)
    ∧ (parse_analysis text).improvements = cascadeImprove
    ∧ (parse_analysis text).job_roles = cascadeRoles := by
  have hhead : headingSections text.data = ⟨[], [], [], []⟩ := by
    simp only [headingSections, hE, hS, hI, hR]
  have hfall : fallbackSections text.data =
      ⟨cascadeExpl, if 500 < text.data.length then text.data.take 500 else text.data,
        cascadeImprove, cascadeRoles⟩ := by
    unfold fallbackSections
    rw [if_neg (by omega), if_neg (by omega)]
  have hsecs : computeSections text.data =
      ⟨cascadeExpl, if 500 < text.data.length then text.data.take 500 else text.data,
        cascadeImprove, cascadeRoles⟩ := by
    unfold computeSections
    rw [hhead, if_pos ⟨rfl, rfl, rfl, rfl⟩, hfall]
  refine ⟨?_, ?_, ?_, ?_⟩
  · rw [parse_analysis_expl, hsecs]
    simp only
    rw [if_neg (by decide)]
    decide
  · rw [parse_analysis_summary, hsecs]
    simp only
    cases htd : text.data with
    | nil => rw [if_pos (by simp), if_pos rfl]
    | cons c rest =>
      rw [if_neg (show ¬(c :: rest = []) by simp)]
      by_cases h5 : 500 < (c :: rest).length
      · rw [if_pos h5, if_neg (take_ne_nil_of_ne (by omega) (by simp)), List.take_take]
        norm_num
      · rw [if_neg h5, if_neg (show ¬(c :: rest = []) by simp),
          List.take_of_length_le (Nat.le_trans (Nat.le_of_not_lt h5) (by norm_num))]
  · rw [parse_analysis_improvements, hsecs]
    simp only
    rw [if_neg (by decide)]
    decide
  · rw [parse_analysis_roles, hsecs]
    simp only
    rw [if_neg (by decide)]
    decide

/-- Witness for the amended C2 at the concrete input `"hello world"`. -/
theorem c2_amended_final_fallback_witness :
    (parse_analysis "hello world").score_explanation = cascadeExpl
    ∧ (parse_analysis "hello world").summary =
        (if ("hello world" : String).data = [] then pyDefaultSummary
         else if 500 < ("hello world" : String).data.length then
           ("hello world" : String).data.take 500
         else ("hello world" : String).data)
    ∧ (parse_analysis "hello world").improvements = cascadeImprove
    ∧ (parse_analysis "hello world").job_roles = cascadeRoles :=
  c2_amended_final_fallback "hello world" (by decide) (by decide) (by decide)
    (by decide) (by decide) (by decide)

/-- C4 counterexample: on a text splitting into exactly the 4 parts `"aa"`,
`"1. bb"`, `"2. cc"`, `"3. dd"`, the improvements section receives parts 2
AND 3 joined by a newline (not just part 2), and `job_roles` does not receive
part 3 — it falls through to the final default. -/
theorem c4_counterexample :
    splitNumBold (strL "aa\n1. bb\n2. cc\n3. dd") =
      [strL "aa", strL "1. bb", strL "2. cc", strL "3. dd"]
    ∧ (parse_analysis "aa\n1. bb\n2. cc\n3. dd").improvements ≠ strL "2. cc"
    ∧ (parse_analysis "aa\n1. bb\n2. cc\n3. dd").job_roles ≠ strL "3. dd"
    ∧ (parse_analysis "aa\n1. bb\n2. cc\n3. dd").improvements =
        strL "2. cc" ++ strL "\n" ++ strL "3. dd"
    ∧ (parse_analysis "aa\n1. bb\n2. cc\n3. dd").job_roles = pyDefaultRoles := by
  decide

/-- C4 as amended: when all heading sections are empty and the numbered/bold
split yields at least 4 parts, the cascade assigns part 0 to
`score_explanation`, part 1 to `summary`, parts 2 and 3 joined by a newline
to `improvements`, and the join of the remaining parts (empty — hence later
defaulted — when there are exactly 4) to `job_roles`. -/
theorem c4_amended_positional_assignment (text : String)
    (p0 p1 p2 p3 : List Char) (rest : List (List Char))
    (hAll : headingSections text.data = ⟨[], [], [], []⟩)
    (hSplit : splitNumBold text.data = p0 :: p1 :: p2 :: p3 :: rest) :
    computeSections text.data =
      ⟨p0, p1, p2 ++ strL "\n" ++ p3, pyJoin (strL "\n") rest⟩ := by
  have hsecs : computeSections text.data = fallbackSections text.data := by
    unfold computeSections
    rw [hAll, if_pos ⟨rfl, rfl, rfl, rfl⟩]
  rw [hsecs]
  unfold fallbackSections
  rw [hSplit]
  rw [if_pos (by simp)]
  have h1 : (1 : Nat) < (p0 :: p1 :: p2 :: p3 :: rest).length := by simp
  have h2 : (2 : Nat) < (p0 :: p1 :: p2 :: p3 :: rest).length := by simp
  rw [if_pos h1, if_pos h2]
  cases rest with
  | nil => simp [pyJoin]
  | cons r rs =>
    rw [if_pos (by simp)]
    simp [pyJoin]

/-- Witness for the amended C4 at the concrete 4-part input. -/
theorem c4_amended_positional_assignment_witness :
    computeSections (strL "aa\n1. bb\n2. cc\n3. dd") =
      ⟨strL "aa", strL "1. bb", strL "2. cc" ++ strL "\n" ++ strL "3. dd",
        pyJoin (strL "\n") []⟩ :=
  c4_amended_positional_assignment "aa\n1. bb\n2. cc\n3. dd"
    (strL "aa") (strL "1. bb") (strL "2. cc") (strL "3. dd") []
    (by decide) (by decide)

/-- `Char.ofNat` of a valid code point keeps its numeric value. -/
theorem toNat_ofNat_valid (n : Nat) (h : n.isValidChar) :
    (Char.ofNat n).toNat = n := by
  simp only [Char.ofNat, h, dif_pos, Char.ofNatAux, Char.toNat]
  rfl

/-- Lowercasing an ASCII uppercase letter adds 32 to its code point. -/
theorem toLower_toNat_of_upper (c : Char) (h1 : 65 ≤ c.toNat) (h2 : c.toNat ≤ 90) :
    (Char.toLower c).toNat = c.toNat + 32 := by
  have hv : (c.toNat + 32).isValidChar := Or.inl (by omega)
  rw [Char.toLower]
  rw [if_pos ⟨h1, h2⟩]
  exact toNat_ofNat_valid _ hv

/-- Lowercasing leaves a non-ASCII-uppercase character unchanged. -/
theorem toLower_eq_self (c : Char) (h : ¬(65 ≤ c.toNat ∧ c.toNat ≤ 90)) :
    Char.toLower c = c := by
  rw [Char.toLower, if_neg h]

/-- `Char.toLower` is idempotent. -/
theorem toLower_idem (c : Char) : Char.toLower (Char.toLower c) = Char.toLower c := by
  by_cases h : 65 ≤ c.toNat ∧ c.toNat ≤ 90
  · have h1 := toLower_toNat_of_upper c h.1 h.2
    exact toLower_eq_self _ (by omega)
  · rw [toLower_eq_self c h]
    exact toLower_eq_self c h

/-- `lowerL` is idempotent. -/
theorem lowerL_idem (l : List Char) : lowerL (lowerL l) = lowerL l := by
  simp [lowerL, toLower_idem]

/-- C5 counterexample: with the duplicated skill list `["python","python"]`
and a job mentioning python once, the code scores 14 (7 per list entry)
while the claim's distinct-skill formula yields 7. -/
theorem c5_counterexample :
    calculate_match_score
        ⟨[], strL "x", [], [], strL "python", [], 0, [], false⟩
        ⟨[strL "python", strL "python"], [], [], 0, []⟩ = 14
    ∧ claim_match_score
        ⟨[], strL "x", [], [], strL "python", [], 0, [], false⟩
        ⟨[strL "python", strL "python"], [], [], 0, []⟩ = 7 := by
  decide

/-- C5 as amended: `calculate_match_score` equals the sum of a 30-point role
word/title bonus, `min(7 * k, 50)` where `k` counts skill *list entries*
occurring in the lowercased title+description, 10 for remote, and 10 for a
positive salary, clamped at 100; and a posting with a role-word title match,
at least 8 matching skill entries, the remote flag and a positive salary
scores exactly 100. -/
theorem c5_amended_match_formula (job : JobPosting) (rd : ResumeAttrs) :
    calculate_match_score job rd = amended_match_formula job rd
    ∧ ((rd.roles.any (fun role =>
          (pySplitWs (lowerL role)).any (fun w => isSubstr w (lowerL job.title)))) = true →
        8 ≤ rd.skills.countP (fun sk =>
          isSubstr (lowerL sk) (lowerL (job.title ++ strL " " ++ job.description))) →
        job.remote = true → 0 < job.salary →
        calculate_match_score job rd = 100) := by
  have hcount :
      (rd.skills.map lowerL).countP
          (fun sk => isSubstr (lowerL sk) (lowerL (job.title ++ strL " " ++ job.description))) =
        rd.skills.countP
          (fun sk => isSubstr (lowerL sk) (lowerL (job.title ++ strL " " ++ job.description))) := by
    rw [List.countP_map]
    exact List.countP_congr (fun a _ => by simp [Function.comp, lowerL_idem])
  have hroles :
      (rd.roles.map lowerL).any (fun role =>
          (pySplitWs role).any (fun w => isSubstr w (lowerL job.title))) =
        rd.roles.any (fun role =>
          (pySplitWs (lowerL role)).any (fun w => isSubstr w (lowerL job.title))) := by
    rw [List.any_map]
    rfl
  constructor
  · unfold calculate_match_score amended_match_formula
    simp only [hcount, hroles, Nat.mul_comm]
  · intro h30 h8 hrem hsal
    unfold calculate_match_score
    simp only [hcount, hroles, h30, if_pos, hrem, if_pos hsal]
    have : 50 ≤ rd.skills.countP (fun sk =>
        isSubstr (lowerL sk) (lowerL (job.title ++ strL " " ++ job.description))) * 7 := by
      omega
    omega

/-- Witness for the amended C5: a concrete posting matching a role word, 8
skills, remote, salaried, scored exactly 100 via `c5_amended_match_formula`. -/
theorem c5_amended_match_formula_witness :
    calculate_match_score
        ⟨[], strL "software engineer", [], [], strL "a b c d e f g h", [],
          100000, [], true⟩
        ⟨[strL "a", strL "b", strL "c", strL "d", strL "e", strL "f", strL "g",
            strL "h"],
          [strL "Software Engineer"], [], 0, []⟩ = 100 :=
  (c5_amended_match_formula
      ⟨[], strL "software engineer", [], [], strL "a b c d e f g h", [],
        100000, [], true⟩
      ⟨[strL "a", strL "b", strL "c", strL "d", strL "e", strL "f", strL "g",
          strL "h"],
        [strL "Software Engineer"], [], 0, []⟩).2
    (by decide) (by decide) (by decide) (by decide)

/-- Inserting an element with `orderedInsert` under the descending score
order preserves, for every score value `c`, the subsequence of elements
scoring exactly `c` (up to the inserted element landing first). -/
theorem filter_orderedInsert_score (x : ScoredJob) (c : Nat) :
    ∀ L : List ScoredJob,
      (List.orderedInsert scoreDescRel x L).filter (fun j => j.match_score == c) =
        (x :: L).filter (fun j => j.match_score == c)
  | [] => by simp
  | y :: L => by
    by_cases hr : scoreDescRel x y
    · simp [List.orderedInsert, if_pos hr]
    · have hlt : x.match_score < y.match_score := Nat.lt_of_not_le hr
      have IH := filter_orderedInsert_score x c L
      by_cases hy : y.match_score = c
      · have hx : ¬(x.match_score = c) := by omega
        simp [List.orderedInsert, if_neg hr, List.filter_cons, hy, hx, IH]
      · by_cases hx : x.match_score = c <;>
          simp [List.orderedInsert, if_neg hr, List.filter_cons, hy, hx, IH]

/-- Insertion sort under the descending score order preserves, for every
score value `c`, the subsequence of elements scoring exactly `c` — the
standard statement of sort stability. -/
theorem filter_insertionSort_score (c : Nat) :
    ∀ L : List ScoredJob,
      (List.insertionSort scoreDescRel L).filter (fun j => j.match_score == c) =
        L.filter (fun j => j.match_score == c)
  | [] => by simp
  | x :: L => by
    have IH := filter_insertionSort_score c L
    rw [show List.insertionSort scoreDescRel (x :: L) =
          List.orderedInsert scoreDescRel x (List.insertionSort scoreDescRel L)
        from rfl,
      filter_orderedInsert_score x c (List.insertionSort scoreDescRel L)]
    simp only [List.filter_cons, IH]

/-- C6: `rank_jobs` is a stable descending sort by `match_score`: its output
is sorted under the descending-score order, is a permutation of the scored
input, and for every score value the subsequence of postings carrying that
score is exactly the one of the input (equal-scored postings keep their
original relative order). -/
theorem c6_rank_jobs_stable (jobs : List JobPosting) (rd : ResumeAttrs) :
    List.Sorted scoreDescRel (rank_jobs jobs rd)
    ∧ (rank_jobs jobs rd).Perm (jobs.map (attachScore rd))
    ∧ ∀ c : Nat,
        (rank_jobs jobs rd).filter (fun j => j.match_score == c) =
          (jobs.map (attachScore rd)).filter (fun j => j.match_score == c) :=
  ⟨List.sorted_insertionSort scoreDescRel (jobs.map (attachScore rd)),
   List.perm_insertionSort scoreDescRel (jobs.map (attachScore rd)),
   fun c => filter_insertionSort_score c (jobs.map (attachScore rd))⟩

/-- C7: `fetch_all_jobs` is the concatenation of the three providers'
contributions in declaration order (Adzuna, JSearch, ArbeitNow), a failed
provider contributing nothing; in particular one raising provider plus
providers returning 5 and 3 postings yield exactly 8. -/
theorem c7_fetch_all_concat :
    (∀ r1 r2 r3 : FetchOutcome,
      fetch_all_jobs r1 r2 r3 = outcomeJobs r1 ++ outcomeJobs r2 ++ outcomeJobs r3)
    ∧ (∀ (e : List Char) (l2 l3 : List JobPosting),
        l2.length = 5 → l3.length = 3 →
        (fetch_all_jobs (FetchOutcome.exn e) (FetchOutcome.ok l2)
          (FetchOutcome.ok l3)).length = 8) := by
  constructor
  · intro r1 r2 r3
    cases r1 <;> cases r2 <;> cases r3 <;> simp [fetch_all_jobs, outcomeJobs]
  · intro e l2 l3 h2 h3
    simp [fetch_all_jobs, h2, h3]

/-- Witness for C7 at concrete outcome values. -/
theorem c7_fetch_all_concat_witness :
    (fetch_all_jobs (FetchOutcome.exn (strL "boom"))
      (FetchOutcome.ok (List.replicate 5 stubPosting))
      (FetchOutcome.ok (List.replicate 3 stubPosting))).length = 8 :=
  c7_fetch_all_concat.2 (strL "boom") (List.replicate 5 stubPosting)
    (List.replicate 3 stubPosting) (by simp) (by simp)

/-- C8 counterexample: an Adzuna response carrying 21 results produces 21
postings — the Adzuna fetcher has no client-side cap of 20. -/
theorem c8_counterexample :
    ¬((fetch_adzuna_jobs 200 (List.replicate 21 stubAdzuna)).length ≤ 20) := by
  decide

/-- C8 as amended: the JSearch fetcher returns at most 20 postings and the
ArbeitNow fetcher at most 15 (their client-side slices), while the Adzuna
fetcher returns one posting per result in a successful response — its
20-per-page limit is only a request parameter, not a client-side cap. -/
theorem c8_amended_provider_caps (status : Nat) (results : List AdzunaJob)
    (data : List JSearchJob) (adata : List ArbeitnowJob)
    (skills roles : List (List Char)) :
    (fetch_openwebninja_jobs status data).length ≤ 20
    ∧ (fetch_arbeitnow_jobs status adata skills roles).length ≤ 15
    ∧ (fetch_adzuna_jobs status results).length =
        (if status = 200 then results.length else 0) := by
  refine ⟨?_, ?_, ?_⟩
  · unfold fetch_openwebninja_jobs
    split
    · simp only [List.length_map, List.length_take]
      omega
    · simp
  · unfold fetch_arbeitnow_jobs
    split
    · simp only [List.length_take]
      omega
    · simp
  · unfold fetch_adzuna_jobs
    split <;> simp

/-- The number of ranked jobs equals the number of fetched jobs. -/
theorem rank_jobs_length (jobs : List JobPosting) (rd : ResumeAttrs) :
    (rank_jobs jobs rd).length = jobs.length := by
  unfold rank_jobs
  rw [(List.perm_insertionSort scoreDescRel (jobs.map (attachScore rd))).length_eq,
    List.length_map]

/-- C9: in a successful `find_matching_jobs` result the exposed `jobs` list
is exactly the first 50 elements of the ranked sequence (truncation after
ranking), so its length is `min n 50` for `n` fetched postings, and 60
fetched postings expose exactly 50. -/
theorem c9_truncation_after_ranking (rd : ResumeAttrs) (jobs : List JobPosting) :
    (find_matching_jobs (Except.ok (rd, jobs))).jobs = (rank_jobs jobs rd).take 50
    ∧ (find_matching_jobs (Except.ok (rd, jobs))).jobs.length = min jobs.length 50
    ∧ (jobs.length = 60 →
        (find_matching_jobs (Except.ok (rd, jobs))).jobs.length = 50) := by
  have hlen : (find_matching_jobs (Except.ok (rd, jobs))).jobs.length =
      min jobs.length 50 := by
    show ((rank_jobs jobs rd).take 50).length = min jobs.length 50
    rw [List.length_take, rank_jobs_length, Nat.min_comm]
  exact ⟨rfl, hlen, fun h60 => by rw [hlen, h60]; decide⟩

/-- Witness for C9 with 60 concrete fetched postings. -/
theorem c9_truncation_after_ranking_witness :
    (find_matching_jobs
      (Except.ok (stubAttrs, List.replicate 60 stubPosting))).jobs.length = 50 :=
  (c9_truncation_after_ranking stubAttrs (List.replicate 60 stubPosting)).2.2 (by simp)

/-- C10: in a successful `find_matching_jobs` result `total_jobs` counts all
fetched postings before the top-50 truncation (and therefore strictly
exceeds the exposed list's length when more than 50 are fetched); in a
failure result `success` is false, `error` is set, `resume_data` is empty,
`total_jobs` is absent and `jobs` is empty. -/
theorem c10_result_envelope (rd : ResumeAttrs) (jobs : List JobPosting)
    (e : List Char) :
    (find_matching_jobs (Except.ok (rd, jobs))).total_jobs = some jobs.length
    ∧ (50 < jobs.length →
        (find_matching_jobs (Except.ok (rd, jobs))).jobs.length < jobs.length)
    ∧ (find_matching_jobs (Except.error e)).success = false
    ∧ (find_matching_jobs (Except.error e)).error = some e
    ∧ (find_matching_jobs (Except.error e)).resume_data = none
    ∧ (find_matching_jobs (Except.error e)).total_jobs = none
    ∧ (find_matching_jobs (Except.error e)).jobs = [] := by
  refine ⟨?_, ?_, rfl, rfl, rfl, rfl, rfl⟩
  · show some (rank_jobs jobs rd).length = some jobs.length
    rw [rank_jobs_length]
  · intro h50
    have hlen : (find_matching_jobs (Except.ok (rd, jobs))).jobs.length =
        min jobs.length 50 := by
      show ((rank_jobs jobs rd).take 50).length = min jobs.length 50
      rw [List.length_take, rank_jobs_length, Nat.min_comm]
    omega

/-- Witness for C10 with 60 concrete fetched postings, whose `total_jobs`
value 60 strictly exceeds the 50 exposed jobs. -/
theorem c10_result_envelope_witness :
    (find_matching_jobs
        (Except.ok (stubAttrs, List.replicate 60 stubPosting))).jobs.length <
      (List.replicate 60 stubPosting).length :=
  (c10_result_envelope stubAttrs (List.replicate 60 stubPosting) []).2.1 (by simp)

end ResumeAnalyzer
